import Mathlib

/-!
Verification of the Fisher's-exact-test defect-rate comparison tool
(`fisher_gui_st_1.2.py` and `fisher_gui_st_1.205.py`) against its
natural-language specification.

The statistical core of the program is embedded shallowly:

* pandas columns (after `dropna().astype(int)`) are `List (Option ℤ)`,
  where `none` stands for a missing (NaN) cell that `dropna` removes;
* Python numbers are exact: counts are `ℕ`/`ℤ`, probabilities and rates
  are `ℚ`;
* `scipy.stats.fisher_exact` is an external dependency whose source is
  not part of this repository; it is modelled from the spec (§4.2):
  the two-sided exact p-value sums the hypergeometric probabilities of
  all tables with the observed margins whose probability is at most the
  observed table's probability, the odds ratio is
  `defects1*good2 / (good1*defects2)` and is reported as
  undefined/infinite (here `none`) when a denominator factor is zero,
  and a negative cell is rejected with a `ValueError` before anything
  is computed;
* a Python run that raises is `Except.error`, a completed run is
  `Except.ok`;
* the float value NaN (which `numpy` produces for `0/0` without
  raising) is modelled as `none` in an `Option ℚ`.

Both source files are transcribed, each into its own namespace (`V12`
and `V1205`), because one of the checked claims is that their
statistical cores coincide.
-/

namespace Fisher

/-- Errors observable at the boundary of one run of the statistical
core.  The first four names come from the spec's error taxonomy (§7);
no code in either source file defines or raises them.  The last
constructor is the `ValueError` that `scipy.stats.fisher_exact` raises
when handed a table with a negative cell, which is the only way a run
of the transcribed core can fail. -/
inductive RunError
  | emptyGroupError
  | invalidCountError
  | invalidAlphaError
  | degenerateTableError
  | negativeCellValueError
  deriving DecidableEq, Repr

/-- Modelled from the spec: the probability, under the hypergeometric
null with row margins `r1`, `r2` and first-column margin `c1`, that
the top-left cell equals `k`.  Out-of-support values of `k` give a
vanishing binomial coefficient and hence probability `0`. -/
def hygPMF (r1 r2 c1 k : ℕ) : ℚ :=
  ((r1.choose k * r2.choose (c1 - k) : ℕ) : ℚ) / (((r1 + r2).choose c1 : ℕ) : ℚ)

/-- Modelled from the spec: the two-sided exact p-value of the table
`[[a, b], [c, d]]` — the sum of the hypergeometric probabilities of
every table with the same margins whose probability is at most the
observed table's probability. -/
def pValueOf (a b c d : ℕ) : ℚ :=
  ∑ k ∈ Finset.range (a + c + 1),
    if hygPMF (a + b) (c + d) (a + c) k ≤ hygPMF (a + b) (c + d) (a + c) a then
      hygPMF (a + b) (c + d) (a + c) k
    else 0

/-- Modelled from the spec: the odds ratio
`defects1*good2 / (good1*defects2)` of the table `[[a, b], [c, d]]`;
when a factor of the denominator is zero it is reported as
undefined/infinite, modelled as `none` (SciPy returns `inf` or `nan`
there rather than raising). -/
def oddsRatioOf (a b c d : ℕ) : Option ℚ :=
  if 0 < b ∧ 0 < c then some (((a * d : ℕ) : ℚ) / ((b * c : ℕ) : ℚ)) else none

/-- Modelled from the spec: `scipy.stats.fisher_exact` on the table
`[[f1, o1], [f2, o2]]`.  A negative cell raises `ValueError`;
otherwise the pair `(oddsratio, p_value)` is returned. -/
def fisher_exact (f1 o1 f2 o2 : ℤ) : Except RunError (Option ℚ × ℚ) :=
  if f1 < 0 ∨ o1 < 0 ∨ f2 < 0 ∨ o2 < 0 then .error .negativeCellValueError
  else .ok (oddsRatioOf f1.toNat o1.toNat f2.toNat o2.toNat,
            pValueOf f1.toNat o1.toNat f2.toNat o2.toNat)

/-- Left-pad a string with `'0'` up to length `n`. -/
def padLeftZeros (n : ℕ) (s : String) : String :=
  String.mk (List.replicate (n - s.length) '0') ++ s

/-- Fixed-point rendering of a rational with `dec` digits after the
point, standing in for Python's `f"..:.{dec}f"` float formatting.
(The tie-breaking of Python's round-half-to-even is not reproduced;
no checked claim depends on the rendered digits.) -/
def fmtFixed (dec : ℕ) (q : ℚ) : String :=
  let scaled : ℤ := round (q * (10 : ℚ) ^ dec)
  let sign := if scaled < 0 then "-" else ""
  let n := scaled.natAbs
  sign ++ toString (n / 10 ^ dec) ++ "." ++ padLeftZeros dec (toString (n % 10 ^ dec))

/-- Rendering of a defect rate that may be NaN (`none`): numpy's NaN
prints as `nan` under float formatting. -/
def fmtRate (r : Option ℚ) : String :=
  match r with
  | none => "nan"
  | some q => fmtFixed 2 q

/-- Everything one button press of either mode computes and shows:
the 2×2 table handed to `fisher_exact`, the returned odds ratio
(`none` = undefined/infinite) and p-value, the two defect rates
(`none` = NaN from a division by a zero sample size), and the
report comment `result_text`. -/
structure Output where
  table : List (List ℤ)
  oddsratio : Option ℚ
  p_val : ℚ
  rate1 : Option ℚ
  rate2 : Option ℚ
  result_text : String
  deriving DecidableEq, Repr

/-- The caller's investigative intent, from the spec's data model (§3).
In the program it is carried by the `purpose` radio button, whose two
fixed phrases are mapped below. -/
inductive Intent
  | seekEquivalence
  | seekImprovement
  deriving DecidableEq, Repr

/-- The spec's four mutually exclusive conclusion kinds (§3, §4.2). -/
inductive ConclusionKind
  | equivalenceAchieved
  | equivalenceNotAchieved_EffectInsufficient
  | improvementConfirmed
  | improvementNotConfirmed
  deriving DecidableEq, Repr

/-- Modelled from the spec: the four-way conclusion classification
table of §4.2, keyed by `(intent, is_significant)`. -/
def conclusion_kind : Intent → Bool → ConclusionKind
  | .seekEquivalence, false => .equivalenceAchieved
  | .seekEquivalence, true => .equivalenceNotAchieved_EffectInsufficient
  | .seekImprovement, true => .improvementConfirmed
  | .seekImprovement, false => .improvementNotConfirmed

namespace V12

/-- The first `purpose` radio option of `fisher_gui_st_1.2.py`
(seek equivalence). -/
def purposeEquivPhrase : String := "差がなくなることを期待（同等を目指す）"

/-- The second `purpose` radio option of `fisher_gui_st_1.2.py`
(seek improvement). -/
def purposeImprovePhrase : String := "差が出ることを期待（改良・強化を目指す）"

/-- The spec's significance decision: `is_significant = (p_value < alpha)`
(§4.0); in the source this is the repeated test `p_val < alpha`. -/
def is_significant (p_val alpha : ℚ) : Bool := p_val < alpha

/-- The `main_result` string of the significant branch (line 84). -/
def main_sig (label1 label2 : String) (rate2 : Option ℚ) : String :=
  "群2（" ++ label2 ++ "）の不良率 " ++ fmtRate rate2 ++
    "% は、群1（" ++ label1 ++ "）と比較して有意に異なります。"

/-- The `main_result` string of the non-significant branch (line 87). -/
def main_nosig (label1 label2 : String) (rate2 : Option ℚ) : String :=
  "群2（" ++ label2 ++ "）の不良率 " ++ fmtRate rate2 ++
    "% は、群1（" ++ label1 ++ "）と比較して統計的に有意な差は認められません。"

/-- `main_result` (lines 83-87): branch on `p_val < alpha`. -/
def main_result (label1 label2 : String) (rate2 : Option ℚ) (p_val alpha : ℚ) : String :=
  if p_val < alpha then main_sig label1 label2 rate2 else main_nosig label1 label2 rate2

/-- The `significance` line of the significant branch (line 85): the
comparison is rendered with the strict operator `＜`. -/
def sig_lt (p_val alpha : ℚ) : String :=
  "p値 = " ++ fmtFixed 4 p_val ++ " ＜ α = " ++ fmtFixed 3 alpha ++
    " → **統計的に有意な差あり**。"

/-- The `significance` line of the non-significant branch (line 88):
the comparison is rendered with `≥`. -/
def sig_ge (p_val alpha : ℚ) : String :=
  "p値 = " ++ fmtFixed 4 p_val ++ " ≥ α = " ++ fmtFixed 3 alpha ++
    " → **統計的に有意な差なし**。"

/-- `significance` (lines 83-88): branch on `p_val < alpha`. -/
def significance (p_val alpha : ℚ) : String :=
  if p_val < alpha then sig_lt p_val alpha else sig_ge p_val alpha

/-- Interpretive note: equivalence achieved (line 92). -/
def note_equiv_achieved : String :=
  "有意差が見られなかったため、**同等化達成の可能性**が示唆されます。"

/-- Interpretive note: effect insufficient (line 94). -/
def note_effect_insufficient : String :=
  "有意差が確認されたため、**対策効果が不十分**の可能性があります。"

/-- Interpretive note: improvement confirmed (line 98). -/
def note_improve_confirmed : String :=
  "有意差が確認されたため、**改良効果が確認された結果**です。"

/-- Interpretive note: improvement not confirmed (line 100). -/
def note_improve_not_confirmed : String :=
  "有意差が見られなかったため、**改良効果は確認されませんでした。**"

/-- `note` (lines 90-101): the equivalence-seeking purpose branches on
`p_val >= alpha`, any other purpose string falls to the improvement
branch, which branches on `p_val < alpha`. -/
def note (purpose : String) (p_val alpha : ℚ) : String :=
  if purpose = purposeEquivPhrase then
    if p_val ≥ alpha then note_equiv_achieved else note_effect_insufficient
  else
    if p_val < alpha then note_improve_confirmed else note_improve_not_confirmed

/-- `result_text` (line 103): the three parts joined exactly as in the
f-string, with the blank line and the book emoji before the note. -/
def result_text (label1 label2 : String) (rate2 : Option ℚ) (p_val alpha : ℚ)
    (purpose : String) : String :=
  main_result label1 label2 rate2 p_val alpha ++ "\n" ++
    significance p_val alpha ++ "\n\n📘 " ++ note purpose p_val alpha

/-- The alpha slider of line 45: `st.slider(.., 0.001, 0.10, ..)` only
yields values inside these bounds. -/
def alphaSliderOK (alpha : ℚ) : Prop := 1 / 1000 ≤ alpha ∧ alpha ≤ 1 / 10

/-- File-input mode, lines 72-103: clean each selected column
(`dropna`), count defects as the column sum and goods as the
remainder, hand the table to `fisher_exact`, then compute the rates
and the report text.  There is no validation of any kind before the
`fisher_exact` call. -/
def runFile (col1 col2 : String) (s1 s2 : List (Option ℤ)) (alpha : ℚ)
    (purpose : String) : Except RunError Output :=
  let data1 := s1.filterMap id
  let data2 := s2.filterMap id
  let fail1 : ℤ := data1.sum
  let ok1 : ℤ := (data1.length : ℤ) - data1.sum
  let fail2 : ℤ := data2.sum
  let ok2 : ℤ := (data2.length : ℤ) - data2.sum
  (fisher_exact fail1 ok1 fail2 ok2).map fun r =>
    let rate1 : Option ℚ :=
      if data1.length = 0 then none else some ((fail1 : ℚ) / (data1.length : ℚ) * 100)
    let rate2 : Option ℚ :=
      if data2.length = 0 then none else some ((fail2 : ℚ) / (data2.length : ℚ) * 100)
    { table := [[fail1, ok1], [fail2, ok2]]
      oddsratio := r.1
      p_val := r.2
      rate1 := rate1
      rate2 := rate2
      result_text := result_text col1 col2 rate2 r.2 alpha purpose }

/-- Manual-input mode, lines 163-190: the widgets guarantee
`n1, n2 ≥ 1` and `f1, f2 ≥ 0` but put no upper bound on the defect
counts; goods are computed by plain subtraction (possibly negative)
and the table goes straight to `fisher_exact`. -/
def runManual (name1 name2 : String) (n1 f1 n2 f2 : ℕ) (alpha : ℚ)
    (purpose : String) : Except RunError Output :=
  let ok1 : ℤ := (n1 : ℤ) - (f1 : ℤ)
  let ok2 : ℤ := (n2 : ℤ) - (f2 : ℤ)
  (fisher_exact (f1 : ℤ) ok1 (f2 : ℤ) ok2).map fun r =>
    let rate2 : Option ℚ := some ((f2 : ℚ) / (n2 : ℚ) * 100)
    { table := [[(f1 : ℤ), ok1], [(f2 : ℤ), ok2]]
      oddsratio := r.1
      p_val := r.2
      rate1 := some ((f1 : ℚ) / (n1 : ℚ) * 100)
      rate2 := rate2
      result_text := result_text name1 name2 rate2 r.2 alpha purpose }

end V12

namespace V1205

/-- The first `purpose` radio option of `fisher_gui_st_1.205.py`
(line 70). -/
def purposeEquivPhrase : String := "差がなくなることを期待（同等を目指す）"

/-- The second `purpose` radio option of `fisher_gui_st_1.205.py`
(line 70). -/
def purposeImprovePhrase : String := "差が出ることを期待（改良・強化を目指す）"

/-- The `main_result` string of the significant branch (line 116). -/
def main_sig (label1 label2 : String) (rate2 : Option ℚ) : String :=
  "群2（" ++ label2 ++ "）の不良率 " ++ fmtRate rate2 ++
    "% は、群1（" ++ label1 ++ "）と比較して有意に異なります。"

/-- The `main_result` string of the non-significant branch (line 119). -/
def main_nosig (label1 label2 : String) (rate2 : Option ℚ) : String :=
  "群2（" ++ label2 ++ "）の不良率 " ++ fmtRate rate2 ++
    "% は、群1（" ++ label1 ++ "）と比較して統計的に有意な差は認められません。"

/-- `main_result` (lines 115-119): branch on `p_val < alpha`. -/
def main_result (label1 label2 : String) (rate2 : Option ℚ) (p_val alpha : ℚ) : String :=
  if p_val < alpha then main_sig label1 label2 rate2 else main_nosig label1 label2 rate2

/-- The `significance` line of the significant branch (line 117). -/
def sig_lt (p_val alpha : ℚ) : String :=
  "p値 = " ++ fmtFixed 4 p_val ++ " ＜ α = " ++ fmtFixed 3 alpha ++
    " → **統計的に有意な差あり**。"

/-- The `significance` line of the non-significant branch (line 120). -/
def sig_ge (p_val alpha : ℚ) : String :=
  "p値 = " ++ fmtFixed 4 p_val ++ " ≥ α = " ++ fmtFixed 3 alpha ++
    " → **統計的に有意な差なし**。"

/-- `significance` (lines 115-120): branch on `p_val < alpha`. -/
def significance (p_val alpha : ℚ) : String :=
  if p_val < alpha then sig_lt p_val alpha else sig_ge p_val alpha

/-- Interpretive note: equivalence achieved (line 124). -/
def note_equiv_achieved : String :=
  "有意差が見られなかったため、**同等化達成の可能性**が示唆されます。"

/-- Interpretive note: effect insufficient (line 126). -/
def note_effect_insufficient : String :=
  "有意差が確認されたため、**対策効果が不十分**の可能性があります。"

/-- Interpretive note: improvement confirmed (line 130). -/
def note_improve_confirmed : String :=
  "有意差が確認されたため、**改良効果が確認された結果**です。"

/-- Interpretive note: improvement not confirmed (line 132). -/
def note_improve_not_confirmed : String :=
  "有意差が見られなかったため、**改良効果は確認されませんでした。**"

/-- `note` (lines 122-133), identical branching to version 1.2. -/
def note (purpose : String) (p_val alpha : ℚ) : String :=
  if purpose = purposeEquivPhrase then
    if p_val ≥ alpha then note_equiv_achieved else note_effect_insufficient
  else
    if p_val < alpha then note_improve_confirmed else note_improve_not_confirmed

/-- `result_text` (line 135). -/
def result_text (label1 label2 : String) (rate2 : Option ℚ) (p_val alpha : ℚ)
    (purpose : String) : String :=
  main_result label1 label2 rate2 p_val alpha ++ "\n" ++
    significance p_val alpha ++ "\n\n📘 " ++ note purpose p_val alpha

/-- File-input mode of version 1.205, lines 104-135: identical
statistical pipeline to version 1.2 (the version differences — font
setup at lines 21-42 and the persisted graph title/label of lines
93-101 and 152-153 — only affect the plot, not these values). -/
def runFile (col1 col2 : String) (s1 s2 : List (Option ℤ)) (alpha : ℚ)
    (purpose : String) : Except RunError Output :=
  let data1 := s1.filterMap id
  let data2 := s2.filterMap id
  let fail1 : ℤ := data1.sum
  let ok1 : ℤ := (data1.length : ℤ) - data1.sum
  let fail2 : ℤ := data2.sum
  let ok2 : ℤ := (data2.length : ℤ) - data2.sum
  (fisher_exact fail1 ok1 fail2 ok2).map fun r =>
    let rate1 : Option ℚ :=
      if data1.length = 0 then none else some ((fail1 : ℚ) / (data1.length : ℚ) * 100)
    let rate2 : Option ℚ :=
      if data2.length = 0 then none else some ((fail2 : ℚ) / (data2.length : ℚ) * 100)
    { table := [[fail1, ok1], [fail2, ok2]]
      oddsratio := r.1
      p_val := r.2
      rate1 := rate1
      rate2 := rate2
      result_text := result_text col1 col2 rate2 r.2 alpha purpose }

/-- Manual-input mode of version 1.205, lines 205-232: identical
statistical pipeline to version 1.2. -/
def runManual (name1 name2 : String) (n1 f1 n2 f2 : ℕ) (alpha : ℚ)
    (purpose : String) : Except RunError Output :=
  let ok1 : ℤ := (n1 : ℤ) - (f1 : ℤ)
  let ok2 : ℤ := (n2 : ℤ) - (f2 : ℤ)
  (fisher_exact (f1 : ℤ) ok1 (f2 : ℤ) ok2).map fun r =>
    let rate2 : Option ℚ := some ((f2 : ℚ) / (n2 : ℚ) * 100)
    { table := [[(f1 : ℤ), ok1], [(f2 : ℤ), ok2]]
      oddsratio := r.1
      p_val := r.2
      rate1 := some ((f1 : ℚ) / (n1 : ℚ) * 100)
      rate2 := rate2
      result_text := result_text name1 name2 rate2 r.2 alpha purpose }

end V1205

/-- The `purpose` radio phrase carried by each `Intent` value (the two
options of line 48). -/
def intentPhrase : Intent → String
  | .seekEquivalence => V12.purposeEquivPhrase
  | .seekImprovement => V12.purposeImprovePhrase

/-- The interpretive-note wording attached to each conclusion kind in
the source (lines 92, 94, 98, 100). -/
def noteText : ConclusionKind → String
  | .equivalenceAchieved => V12.note_equiv_achieved
  | .equivalenceNotAchieved_EffectInsufficient => V12.note_effect_insufficient
  | .improvementConfirmed => V12.note_improve_confirmed
  | .improvementNotConfirmed => V12.note_improve_not_confirmed

theorem hygPMF_nonneg (r1 r2 c1 k : ℕ) : 0 ≤ hygPMF r1 r2 c1 k := by
  unfold hygPMF
  positivity

theorem sum_hygPMF (r1 r2 c1 : ℕ) (h : c1 ≤ r1 + r2) :
    ∑ k ∈ Finset.range (c1 + 1), hygPMF r1 r2 c1 k = 1 := by
  have hpos : 0 < (r1 + r2).choose c1 := Nat.choose_pos h
  unfold hygPMF
  rw [← Finset.sum_div, div_eq_one_iff_eq (by exact_mod_cast hpos.ne')]
  norm_cast
  rw [Nat.add_choose_eq, Finset.Nat.sum_antidiagonal_eq_sum_range_succ_mk]

theorem pValueOf_nonneg (a b c d : ℕ) : 0 ≤ pValueOf a b c d := by
  unfold pValueOf
  refine Finset.sum_nonneg fun k _ => ?_
  split
  · exact hygPMF_nonneg _ _ _ _
  · exact le_refl 0

theorem pValueOf_le_one (a b c d : ℕ) : pValueOf a b c d ≤ 1 := by
  unfold pValueOf
  have hle : ∑ k ∈ Finset.range (a + c + 1),
      (if hygPMF (a + b) (c + d) (a + c) k ≤ hygPMF (a + b) (c + d) (a + c) a then
        hygPMF (a + b) (c + d) (a + c) k
      else 0) ≤ ∑ k ∈ Finset.range (a + c + 1), hygPMF (a + b) (c + d) (a + c) k := by
    refine Finset.sum_le_sum fun k _ => ?_
    split
    · exact le_refl _
    · exact hygPMF_nonneg _ _ _ _
  calc _ ≤ ∑ k ∈ Finset.range (a + c + 1), hygPMF (a + b) (c + d) (a + c) k := hle
    _ = 1 := sum_hygPMF _ _ _ (by omega)

theorem hygPMF_swap (r1 r2 c1 k : ℕ) (hk : k ≤ c1) :
    hygPMF r2 r1 c1 k = hygPMF r1 r2 c1 (c1 - k) := by
  unfold hygPMF
  rw [Nat.add_comm r2 r1, Nat.sub_sub_self hk]
  push_cast
  ring

theorem pValueOf_swap (a b c d : ℕ) : pValueOf c d a b = pValueOf a b c d := by
  unfold pValueOf
  have hca : c + a = a + c := Nat.add_comm c a
  rw [hca]
  have hobs : hygPMF (c + d) (a + b) (a + c) c = hygPMF (a + b) (c + d) (a + c) a := by
    rw [hygPMF_swap (a + b) (c + d) (a + c) c (by omega)]
    congr 1
    omega
  calc ∑ k ∈ Finset.range (a + c + 1),
        (if hygPMF (c + d) (a + b) (a + c) k ≤ hygPMF (c + d) (a + b) (a + c) c then
          hygPMF (c + d) (a + b) (a + c) k
        else 0)
      = ∑ k ∈ Finset.range (a + c + 1),
        (if hygPMF (a + b) (c + d) (a + c) (a + c - k) ≤ hygPMF (a + b) (c + d) (a + c) a then
          hygPMF (a + b) (c + d) (a + c) (a + c - k)
        else 0) := by
        refine Finset.sum_congr rfl fun k hk => ?_
        have hk' : k ≤ a + c := by
          have := Finset.mem_range.mp hk
          omega
        rw [hygPMF_swap (a + b) (c + d) (a + c) k hk', hobs]
    _ = ∑ k ∈ Finset.range (a + c + 1),
        (if hygPMF (a + b) (c + d) (a + c) k ≤ hygPMF (a + b) (c + d) (a + c) a then
          hygPMF (a + b) (c + d) (a + c) k
        else 0) := by
        have hrefl := Finset.sum_range_reflect
          (fun k => if hygPMF (a + b) (c + d) (a + c) k ≤ hygPMF (a + b) (c + d) (a + c) a then
            hygPMF (a + b) (c + d) (a + c) k
          else 0) (a + c + 1)
        simpa using hrefl

theorem sum_eq_count_one (l : List ℤ) (h : ∀ x ∈ l, x = 0 ∨ x = 1) :
    l.sum = (l.count 1 : ℤ) := by
  induction l with
  | nil => simp
  | cons x t ih =>
    have hx := h x (List.mem_cons_self x t)
    have ht : ∀ y ∈ t, y = 0 ∨ y = 1 := fun y hy => h y (List.mem_cons_of_mem x hy)
    rcases hx with h0 | h1 <;> subst_vars <;>
      (simp [List.count_cons, ih ht]; try omega)

/-- C1: for every intent and every `(p_val, alpha)`, the interpretive
note produced by the nested conditionals of lines 90-101 is exactly
the note that the spec's four-way table assigns to
`(intent, is_significant)`, and the four note texts are pairwise
distinct; the classification is therefore total, deterministic, and
matches the table with no default branch over its two-value domain. -/
theorem spec2proof_C1 :
    (∀ (i : Intent) (p_val alpha : ℚ),
      V12.note (intentPhrase i) p_val alpha =
        noteText (conclusion_kind i (V12.is_significant p_val alpha)))
    ∧ (∀ k k' : ConclusionKind, noteText k = noteText k' → k = k') := by
  constructor
  · have hne : V12.purposeImprovePhrase ≠ V12.purposeEquivPhrase := by decide
    intro i p a
    by_cases h : p < a <;>
      cases i <;>
        simp [V12.note, intentPhrase, V12.is_significant, conclusion_kind, noteText,
          hne, h, not_lt.mp, le_of_not_lt]
  · intro k k'
    cases k <;> cases k' <;> decide

theorem spec2proof_C1_witness :
    V12.note (intentPhrase Intent.seekEquivalence) (1 / 10) (1 / 2) =
      noteText (conclusion_kind Intent.seekEquivalence (V12.is_significant (1 / 10) (1 / 2)))
    ∧ ConclusionKind.improvementConfirmed = ConclusionKind.improvementConfirmed :=
  ⟨spec2proof_C1.1 Intent.seekEquivalence (1 / 10) (1 / 2),
    spec2proof_C1.2 ConclusionKind.improvementConfirmed ConclusionKind.improvementConfirmed rfl⟩

/-- C2: the significance decision of lines 83-88 is
`is_significant = (p_val < alpha)`; the rendered significance line is
the `＜`-operator template exactly when significant and the
`≥`-operator template otherwise, the two templates are never equal,
and the boundary case `p_val = alpha` is classified not significant. -/
theorem spec2proof_C2 (p_val alpha : ℚ) :
    (V12.is_significant p_val alpha = decide (p_val < alpha))
    ∧ (V12.is_significant p_val alpha = true →
        V12.significance p_val alpha = V12.sig_lt p_val alpha)
    ∧ (V12.is_significant p_val alpha = false →
        V12.significance p_val alpha = V12.sig_ge p_val alpha)
    ∧ V12.sig_lt p_val alpha ≠ V12.sig_ge p_val alpha
    ∧ V12.is_significant alpha alpha = false := by
  refine ⟨rfl, ?_, ?_, ?_, by simp [V12.is_significant]⟩
  · intro h
    simp [V12.significance, of_decide_eq_true h]
  · intro h
    simp [V12.significance, of_decide_eq_false h]
  · intro heq
    have hdata := congrArg String.data heq
    simp only [V12.sig_lt, V12.sig_ge, String.data_append, List.append_assoc] at hdata
    have h3 := List.append_cancel_left (List.append_cancel_left hdata)
    have h4 : " ＜ α = ".data = " ≥ α = ".data :=
      (List.append_inj h3 (by decide)).1
    exact absurd h4 (by decide)

theorem spec2proof_C2_witness :
    V12.significance (1 / 100) (1 / 20) = V12.sig_lt (1 / 100) (1 / 20)
    ∧ V12.significance (1 / 10) (1 / 20) = V12.sig_ge (1 / 10) (1 / 20) :=
  ⟨(spec2proof_C2 (1 / 100) (1 / 20)).2.1 (decide_eq_true (by norm_num)),
    (spec2proof_C2 (1 / 10) (1 / 20)).2.2.1 (decide_eq_false (by norm_num))⟩

/-- C4: for every table with both row sums positive, the two-sided
exact p-value lies in `[0, 1]` and is unchanged when the two rows
(the two groups) are swapped. -/
theorem spec2proof_C4 (a b c d : ℕ) (_h1 : 0 < a + b) (_h2 : 0 < c + d) :
    0 ≤ pValueOf a b c d ∧ pValueOf a b c d ≤ 1 ∧ pValueOf c d a b = pValueOf a b c d :=
  ⟨pValueOf_nonneg a b c d, pValueOf_le_one a b c d, pValueOf_swap a b c d⟩

theorem spec2proof_C4_witness :
    0 ≤ pValueOf 5 95 3 97 ∧ pValueOf 5 95 3 97 ≤ 1
      ∧ pValueOf 3 97 5 95 = pValueOf 5 95 3 97 :=
  spec2proof_C4 5 95 3 97 (by decide) (by decide)

/-- C9: for every input, the statistical cores of version 1.2 and
version 1.205 coincide in both modes — same table, odds ratio,
p-value, defect rates and, character for character, the same
`result_text`; the two versions differ only in the plotting layer. -/
theorem spec2proof_C9 :
    (∀ (col1 col2 : String) (s1 s2 : List (Option ℤ)) (alpha : ℚ) (purpose : String),
      V12.runFile col1 col2 s1 s2 alpha purpose = V1205.runFile col1 col2 s1 s2 alpha purpose)
    ∧ (∀ (name1 name2 : String) (n1 f1 n2 f2 : ℕ) (alpha : ℚ) (purpose : String),
      V12.runManual name1 name2 n1 f1 n2 f2 alpha purpose
        = V1205.runManual name1 name2 n1 f1 n2 f2 alpha purpose) :=
  ⟨fun _ _ _ _ _ _ => rfl, fun _ _ _ _ _ _ _ _ => rfl⟩

/-- C3: a run of the file-input mode on binary sequences equals a run
of the manual-input mode on the corresponding
`(sample_size, defect_count)` pairs — the built tables coincide, and
hence so do the p-value, odds ratio, rates and the narrated verdict.
The sequences may contain missing entries (dropped by `dropna`); the
counts are the cleaned lengths and the number of ones. -/
theorem spec2proof_C3 (col1 col2 : String) (s1 s2 : List (Option ℤ)) (alpha : ℚ)
    (purpose : String)
    (h1 : ∀ x ∈ s1.filterMap id, x = 0 ∨ x = 1)
    (h2 : ∀ x ∈ s2.filterMap id, x = 0 ∨ x = 1)
    (hn1 : 1 ≤ (s1.filterMap id).length)
    (hn2 : 1 ≤ (s2.filterMap id).length) :
    V12.runFile col1 col2 s1 s2 alpha purpose =
      V12.runManual col1 col2 (s1.filterMap id).length ((s1.filterMap id).count 1)
        (s2.filterMap id).length ((s2.filterMap id).count 1) alpha purpose := by
  have e1 : (s1.filterMap id).sum = ((s1.filterMap id).count 1 : ℤ) := sum_eq_count_one _ h1
  have e2 : (s2.filterMap id).sum = ((s2.filterMap id).count 1 : ℤ) := sum_eq_count_one _ h2
  have l1 : ¬(s1.filterMap id).length = 0 := by omega
  have l2 : ¬(s2.filterMap id).length = 0 := by omega
  unfold V12.runFile V12.runManual
  simp only [e1, e2, if_neg l1, if_neg l2, Int.cast_natCast]

theorem spec2proof_C3_witness :
    V12.runFile "A" "B" [some 1, some 0, none, some 0] [some 0, some 0] (1 / 20) "x" =
      V12.runManual "A" "B" 3 1 2 0 (1 / 20) "x" := by
  have h := spec2proof_C3 "A" "B" [some 1, some 0, none, some 0] [some 0, some 0] (1 / 20) "x"
    (by decide) (by decide) (by decide) (by decide)
  simpa using h

/-- C10: in every rendered `result_text`, the comparative sentence,
the significance line and the interpretive note are all selected by
the single predicate `p_val < alpha`: when significant, the
"significantly different" sentence, the `＜` line and one of the
{effect-insufficient, improvement-confirmed} notes appear together;
when not significant, the "no significant difference" sentence, the
`≥` line and one of the {equivalence-achieved,
improvement-not-confirmed} notes appear together; and the significant
notes are distinct from the non-significant ones, so the three parts
never contradict each other. -/
theorem spec2proof_C10 (label1 label2 : String) (rate2 : Option ℚ) (p_val alpha : ℚ)
    (i : Intent) :
    (V12.is_significant p_val alpha = true →
      V12.main_result label1 label2 rate2 p_val alpha = V12.main_sig label1 label2 rate2
      ∧ V12.significance p_val alpha = V12.sig_lt p_val alpha
      ∧ (V12.note (intentPhrase i) p_val alpha = V12.note_effect_insufficient
          ∨ V12.note (intentPhrase i) p_val alpha = V12.note_improve_confirmed))
    ∧ (V12.is_significant p_val alpha = false →
      V12.main_result label1 label2 rate2 p_val alpha = V12.main_nosig label1 label2 rate2
      ∧ V12.significance p_val alpha = V12.sig_ge p_val alpha
      ∧ (V12.note (intentPhrase i) p_val alpha = V12.note_equiv_achieved
          ∨ V12.note (intentPhrase i) p_val alpha = V12.note_improve_not_confirmed))
    ∧ V12.note_effect_insufficient ≠ V12.note_equiv_achieved
    ∧ V12.note_effect_insufficient ≠ V12.note_improve_not_confirmed
    ∧ V12.note_improve_confirmed ≠ V12.note_equiv_achieved
    ∧ V12.note_improve_confirmed ≠ V12.note_improve_not_confirmed := by
  have hne : V12.purposeImprovePhrase ≠ V12.purposeEquivPhrase := by decide
  refine ⟨?_, ?_, by decide, by decide, by decide, by decide⟩
  · intro h
    have hlt : p_val < alpha := of_decide_eq_true h
    cases i <;>
      simp [V12.main_result, V12.significance, V12.note, intentPhrase, hne, hlt,
        not_le.mpr hlt]
  · intro h
    have hge : alpha ≤ p_val := not_lt.mp (of_decide_eq_false h)
    cases i <;>
      simp [V12.main_result, V12.significance, V12.note, intentPhrase, hne, hge,
        not_lt.mpr hge]

theorem spec2proof_C10_witness :
    V12.main_result "A" "B" (some 3) (1 / 100) (1 / 20) = V12.main_sig "A" "B" (some 3)
    ∧ V12.significance (1 / 100) (1 / 20) = V12.sig_lt (1 / 100) (1 / 20)
    ∧ (V12.note (intentPhrase Intent.seekImprovement) (1 / 100) (1 / 20)
          = V12.note_effect_insufficient
        ∨ V12.note (intentPhrase Intent.seekImprovement) (1 / 100) (1 / 20)
          = V12.note_improve_confirmed) :=
  (spec2proof_C10 "A" "B" (some 3) (1 / 100) (1 / 20) Intent.seekImprovement).1
    (decide_eq_true (by norm_num))

theorem fisher_exact_ok (f1 o1 f2 o2 : ℤ) (h1 : 0 ≤ f1) (h2 : 0 ≤ o1) (h3 : 0 ≤ f2)
    (h4 : 0 ≤ o2) :
    fisher_exact f1 o1 f2 o2 =
      .ok (oddsRatioOf f1.toNat o1.toNat f2.toNat o2.toNat,
        pValueOf f1.toNat o1.toNat f2.toNat o2.toNat) := by
  unfold fisher_exact
  rw [if_neg (by omega)]

theorem fisher_exact_err (f1 o1 f2 o2 : ℤ) (h : f1 < 0 ∨ o1 < 0 ∨ f2 < 0 ∨ o2 < 0) :
    fisher_exact f1 o1 f2 o2 = .error .negativeCellValueError := by
  unfold fisher_exact
  rw [if_pos h]

theorem pValueOf_0110 : pValueOf 0 1 1 0 = 1 := by
  norm_num [pValueOf, hygPMF, Finset.sum_range_succ, Nat.choose_self, Nat.choose_one_right]

theorem pValueOf_0010 : pValueOf 0 0 1 0 = 1 := by
  norm_num [pValueOf, hygPMF, Finset.sum_range_succ, Nat.choose_self, Nat.choose_one_right]

theorem oddsRatioOf_0110 : oddsRatioOf 0 1 1 0 = some 0 := by
  norm_num [oddsRatioOf]

/-- C5 counterexample: with an empty first column the file-input run
raises nothing — no `EmptyGroupError` exists in the code — and
completes with a `[0, 0]` table row, p-value `1`, and a NaN defect
rate for the empty group. -/
theorem spec2proof_C5_counterexample :
    ∃ out, V12.runFile "g1" "g2" [] [some 1] (1 / 20) V12.purposeEquivPhrase = .ok out
      ∧ out.table = [[0, 0], [1, 0]] ∧ out.rate1 = none ∧ out.p_val = 1 := by
  refine ⟨_, rfl, by decide, by decide, ?_⟩
  show pValueOf 0 0 1 0 = 1
  exact pValueOf_0010

/-- C5 (amended): in the binary-sequence input mode an input column
that is empty after cleaning is not detected: the run performs no
emptiness check, raises no error, and still produces a result whose
defect rate for the empty group is NaN (modelled `none`). -/
theorem spec2proof_C5 (col1 col2 : String) (s2 : List (Option ℤ)) (alpha : ℚ)
    (purpose : String) (h2 : ∀ x ∈ s2.filterMap id, x = 0 ∨ x = 1) :
    ∃ out, V12.runFile col1 col2 [] s2 alpha purpose = .ok out ∧ out.rate1 = none := by
  have e2 : (s2.filterMap id).sum = ((s2.filterMap id).count 1 : ℤ) := sum_eq_count_one _ h2
  have hc : ((s2.filterMap id).count 1 : ℤ) ≤ ((s2.filterMap id).length : ℤ) := by
    exact_mod_cast List.count_le_length 1 (s2.filterMap id)
  have hok := fisher_exact_ok 0 0 (s2.filterMap id).sum
    (((s2.filterMap id).length : ℤ) - (s2.filterMap id).sum)
    le_rfl le_rfl (by rw [e2]; positivity) (by rw [e2]; omega)
  simp only [V12.runFile, List.filterMap_nil, List.sum_nil, List.length_nil,
    Nat.cast_zero, sub_zero, hok, Except.map]
  exact ⟨_, rfl, by simp⟩

theorem spec2proof_C5_witness :
    ∃ out, V12.runFile "g1" "g2" [] [some 1, some 0, none] (1 / 20) V12.purposeEquivPhrase
      = .ok out ∧ out.rate1 = none :=
  spec2proof_C5 "g1" "g2" [some 1, some 0, none] (1 / 20) V12.purposeEquivPhrase (by decide)

/-- C6 counterexample: with defect count 2 out of sample size 1, the
run fails with SciPy's negative-cell `ValueError`, which is a
different error from the spec's `InvalidCountError` (no
`InvalidCountError` exists anywhere in the code). -/
theorem spec2proof_C6_counterexample :
    V12.runManual "Group1" "Group2" 1 2 1 0 (1 / 20) V12.purposeEquivPhrase
        = .error RunError.negativeCellValueError
      ∧ RunError.negativeCellValueError ≠ RunError.invalidCountError :=
  ⟨rfl, by decide⟩

/-- C6 (amended): in the counts input mode (whose widgets already
force `sample_size ≥ 1` and `defect_count ≥ 0`), a result is produced
exactly when `defect_count ≤ sample_size` holds for both groups;
when a defect count exceeds its sample size the run fails — but with
the negative-cell `ValueError` raised inside `fisher_exact`, not with
an `InvalidCountError`, which the code never defines. -/
theorem spec2proof_C6 (name1 name2 : String) (n1 f1 n2 f2 : ℕ) (alpha : ℚ)
    (purpose : String) (_hn1 : 1 ≤ n1) (_hn2 : 1 ≤ n2) :
    ((∃ out, V12.runManual name1 name2 n1 f1 n2 f2 alpha purpose = .ok out) ↔
      (f1 ≤ n1 ∧ f2 ≤ n2))
    ∧ ((f1 > n1 ∨ f2 > n2) →
        V12.runManual name1 name2 n1 f1 n2 f2 alpha purpose
          = .error RunError.negativeCellValueError) := by
  by_cases h : f1 ≤ n1 ∧ f2 ≤ n2
  · have hok := fisher_exact_ok (f1 : ℤ) ((n1 : ℤ) - (f1 : ℤ)) (f2 : ℤ) ((n2 : ℤ) - (f2 : ℤ))
      (by positivity) (by omega) (by positivity) (by omega)
    have hrun : ∃ out, V12.runManual name1 name2 n1 f1 n2 f2 alpha purpose = .ok out := by
      simp only [V12.runManual, hok, Except.map]
      exact ⟨_, rfl⟩
    exact ⟨⟨fun _ => h, fun _ => hrun⟩, fun hc => absurd hc (by omega)⟩
  · have herr := fisher_exact_err (f1 : ℤ) ((n1 : ℤ) - (f1 : ℤ)) (f2 : ℤ) ((n2 : ℤ) - (f2 : ℤ))
      (by omega)
    have hrun : V12.runManual name1 name2 n1 f1 n2 f2 alpha purpose
        = .error RunError.negativeCellValueError := by
      simp only [V12.runManual, herr, Except.map]
    refine ⟨⟨?_, fun hh => absurd hh h⟩, fun _ => hrun⟩
    rintro ⟨out, hout⟩
    rw [hrun] at hout
    cases hout

theorem spec2proof_C6_witness :
    ((∃ out, V12.runManual "Group1" "Group2" 100 5 100 3 (1 / 20) V12.purposeEquivPhrase
        = .ok out) ↔ (5 ≤ 100 ∧ 3 ≤ 100))
    ∧ ((5 > 100 ∨ 3 > 100) →
        V12.runManual "Group1" "Group2" 100 5 100 3 (1 / 20) V12.purposeEquivPhrase
          = .error RunError.negativeCellValueError) :=
  spec2proof_C6 "Group1" "Group2" 100 5 100 3 (1 / 20) V12.purposeEquivPhrase
    (by norm_num) (by norm_num)

/-- C7 counterexample: `alpha = 0` lies outside `(0, 1)`, yet the run
raises nothing — no `InvalidAlphaError` exists in the code — and a
verdict is produced. -/
theorem spec2proof_C7_counterexample :
    ¬(0 < (0 : ℚ) ∧ (0 : ℚ) < 1)
    ∧ ∃ out, V12.runManual "Group1" "Group2" 1 0 1 1 0 V12.purposeEquivPhrase = .ok out :=
  ⟨by norm_num, _, rfl⟩

/-- C7 (amended): the core performs no alpha validation and defines no
`InvalidAlphaError`; instead the UI slider bounds `[0.001, 0.10]`
keep every reachable alpha inside the open interval `(0, 1)`, and for
an out-of-range alpha such as `0` the engine still runs to completion
and produces a verdict. -/
theorem spec2proof_C7 :
    (∀ alpha : ℚ, V12.alphaSliderOK alpha → 0 < alpha ∧ alpha < 1)
    ∧ (∀ (name1 name2 purpose : String) (n1 f1 n2 f2 : ℕ), f1 ≤ n1 → f2 ≤ n2 →
        ∃ out, V12.runManual name1 name2 n1 f1 n2 f2 0 purpose = .ok out) := by
  constructor
  · rintro a ⟨h1, h2⟩
    constructor <;> linarith
  · intro name1 name2 purpose n1 f1 n2 f2 hf1 hf2
    have hok := fisher_exact_ok (f1 : ℤ) ((n1 : ℤ) - (f1 : ℤ)) (f2 : ℤ) ((n2 : ℤ) - (f2 : ℤ))
      (by positivity) (by omega) (by positivity) (by omega)
    simp only [V12.runManual, hok, Except.map]
    exact ⟨_, rfl⟩

theorem spec2proof_C7_witness :
    (0 < (1 / 20 : ℚ) ∧ (1 / 20 : ℚ) < 1)
    ∧ ∃ out, V12.runManual "Group1" "Group2" 100 5 100 3 0 V12.purposeEquivPhrase = .ok out :=
  ⟨spec2proof_C7.1 (1 / 20) ⟨by norm_num, by norm_num⟩,
    spec2proof_C7.2 "Group1" "Group2" V12.purposeEquivPhrase 100 5 100 3
      (by norm_num) (by norm_num)⟩

/-- C8 counterexample: on the smallest degenerate table — group1 with
`(sample_size, defects) = (1, 0)`, group2 with `(1, 1)` — the run does
produce a valid p-value (`1`), but the odds ratio is `0` (its
numerator `defects1 * good2` is zero while its denominator
`good1 * defects2 = 1` is positive), not undefined/infinite as the
claim asserts for this table. -/
theorem spec2proof_C8_counterexample :
    ∃ out, V12.runManual "Group1" "Group2" 1 0 1 1 (1 / 20) V12.purposeEquivPhrase = .ok out
      ∧ out.p_val = 1 ∧ out.oddsratio = some 0
      ∧ some (0 : ℚ) ≠ (none : Option ℚ) := by
  refine ⟨_, rfl, ?_, ?_, by simp⟩
  · show pValueOf 0 1 1 0 = 1
    exact pValueOf_0110
  · show oddsRatioOf 0 1 1 0 = some 0
    exact oddsRatioOf_0110

/-- C8 (amended): the smallest degenerate table still yields a valid
p-value (`1`) without raising, and its odds ratio is the well-defined
value `0` (only its numerator vanishes, so it is not reported as
undefined/infinite); whenever a factor of the odds-ratio denominator
is zero the ratio is reported as undefined/infinite (modelled `none`)
rather than raising, and the p-value always lies in `[0, 1]`. -/
theorem spec2proof_C8 :
    (∃ out, V12.runManual "Group1" "Group2" 1 0 1 1 (1 / 20) V12.purposeEquivPhrase = .ok out
        ∧ out.p_val = 1 ∧ out.oddsratio = some 0)
    ∧ (∀ a b c d : ℕ, b * c = 0 → oddsRatioOf a b c d = none)
    ∧ (∀ a b c d : ℕ, 0 ≤ pValueOf a b c d ∧ pValueOf a b c d ≤ 1) := by
  refine ⟨⟨_, rfl, ?_, ?_⟩, ?_,
    fun a b c d => ⟨pValueOf_nonneg a b c d, pValueOf_le_one a b c d⟩⟩
  · show pValueOf 0 1 1 0 = 1
    exact pValueOf_0110
  · show oddsRatioOf 0 1 1 0 = some 0
    exact oddsRatioOf_0110
  · intro a b c d h
    rcases Nat.mul_eq_zero.mp h with h0 | h0 <;> simp [oddsRatioOf, h0]

theorem spec2proof_C8_witness :
    oddsRatioOf 2 0 3 1 = none ∧ (0 ≤ pValueOf 1 1 1 1 ∧ pValueOf 1 1 1 1 ≤ 1) :=
  ⟨spec2proof_C8.2.1 2 0 3 1 (by norm_num), spec2proof_C8.2.2 1 1 1 1⟩

end Fisher
